import Mathlib

/-!
Verification of the FleetView ingestion/registry/classification engine
(`app.js`, `config.js`) against its specification.

The JavaScript source is shallowly embedded: machine timestamps (epoch
milliseconds) and RSSI values become `Int`, byte sequences (`DataView`)
become `List Nat` of values below 256, the `Map` of detected assets becomes
an association list with JS `Map.set` semantics, and DOM / logging side
effects are either projected away (they never touch registry fields) or
recorded in explicit result fields.
-/

namespace FleetView

/-! ### Configuration (`config.js`, `CONFIG`) -/

/-- `CONFIG.TICKER_INTERVAL_MS` (config.js): period of the status sweep. -/
def TICKER_INTERVAL_MS : Nat := 2000

/-- `CONFIG.LED_STATUS.ACTIVE_MS` (config.js): seen within this many ms = green. -/
def ACTIVE_MS : Int := 5000

/-- `CONFIG.LED_STATUS.INACTIVE_MS` (config.js): seen within this many ms = yellow. -/
def INACTIVE_MS : Int := 30000

/-- `CONFIG.RSSI_STATUS.STRONG` (config.js). -/
def RSSI_STRONG : Int := -75

/-- `CONFIG.RSSI_STATUS.WEAK` (config.js). -/
def RSSI_WEAK : Int := -88

/-- The match condition of one entry of `CONFIG.FTS_PROFILES`: either a
service-data UUID (`type: 'service'`, field `uuid`) or a manufacturer-data
company identifier (`type: 'manufacturer'`, field `companyId`). -/
inductive ProfileKind
  | service (uuid : String)
  | manufacturer (companyId : Nat)
deriving DecidableEq, Repr

/-- One entry of `CONFIG.FTS_PROFILES` (config.js). -/
structure Profile where
  profileName : String
  kind : ProfileKind
deriving DecidableEq, Repr

/-- `CONFIG.FTS_PROFILES` (config.js): the two configured device profiles,
in declared order. -/
def FTS_PROFILES : List Profile :=
  [ { profileName := "FTS-Gruppe Ladestation (Typ A)", kind := .service "0xfcf1" },
    { profileName := "FTS \x27M.\x27 (Typ B)", kind := .manufacturer 0xa212 } ]

/-! ### Freshness classifier (`updateSingleAssetStatus`, app.js 352-372) -/

/-- The three LED bands of `updateSingleAssetStatus`: `led-green` (Fresh),
`led-yellow` (Stale), `led-red` (Lost). -/
inductive Freshness
  | Fresh
  | Stale
  | Lost
deriving DecidableEq, Repr

/-- The LED-band computation of `updateSingleAssetStatus` (app.js 352-372):
`diffMs = now - asset.lastSeen.getTime()`; `led-red` is the default,
`diffMs < ACTIVE_MS` gives `led-green`, else `diffMs < INACTIVE_MS` gives
`led-yellow`.  The DOM writes of the source function carry no registry
state and are projected away. -/
def updateSingleAssetStatus (lastSeen now : Int) : Freshness :=
  let diffMs := now - lastSeen
  if diffMs < ACTIVE_MS then Freshness.Fresh
  else if diffMs < INACTIVE_MS then Freshness.Stale
  else Freshness.Lost

/-! ### Hex rendering (`dataViewToHexString`, app.js 468-480) -/

/-- The characters removed by JS `String.prototype.trim`: the ECMA-262
WhiteSpace production (TAB, VT, FF, SP, NBSP, ZWNBSP/BOM, and the Unicode
space separators Zs) together with the LineTerminator production (LF, CR,
LS, PS). -/
def jsWhitespace (c : Char) : Bool :=
  c == ' ' || c == '\t' || c == '\n' || c == '\r' ||
  c.val == 0x0B || c.val == 0x0C || c.val == 0xA0 || c.val == 0xFEFF ||
  c.val == 0x1680 || (0x2000 ≤ c.val && c.val ≤ 0x200A) ||
  c.val == 0x2028 || c.val == 0x2029 || c.val == 0x202F ||
  c.val == 0x205F || c.val == 0x3000

/-- Drop leading whitespace (left half of JS `trim`). -/
def trimLeftChars (l : List Char) : List Char := l.dropWhile jsWhitespace

/-- Drop trailing whitespace (right half of JS `trim`). -/
def trimRightChars (l : List Char) : List Char :=
  (l.reverse.dropWhile jsWhitespace).reverse

/-- JS `String.prototype.trim` on a character list. -/
def jsTrimChars (l : List Char) : List Char := trimRightChars (trimLeftChars l)

/-- JS `String.prototype.trim`. -/
def jsTrim (s : String) : String := String.mk (jsTrimChars s.data)

/-- One hex digit of JS `Number.prototype.toString(16).toUpperCase()`. -/
def hexDigitChar (n : Nat) : Char :=
  if n < 10 then Char.ofNat (48 + n) else Char.ofNat (55 + n)

/-- `byte.toString(16).toUpperCase()` padded to two digits
(`(byte.length === 1 ? '0' : '') + byte`, app.js 475-477), for `b < 256`. -/
def byteToHexChars (b : Nat) : List Char :=
  if b < 16 then ['0', hexDigitChar b]
  else [hexDigitChar (b / 16), hexDigitChar (b % 16)]

/-- `dataViewToHexString` (app.js 468-480).  `none` models an absent
(`!dataView`) byte sequence; otherwise the bytes of the `DataView`.  The
loop appends each padded byte followed by a space to the accumulator
`"0x"`, and the result is trimmed. -/
def dataViewToHexString (dv : Option (List Nat)) : String :=
  match dv with
  | none => "N/A (leere Payload)"
  | some bytes =>
    if bytes.length = 0 then "N/A (leere Payload)"
    else String.mk (jsTrimChars
      (bytes.foldl (fun acc b => acc ++ byteToHexChars b ++ [' ']) ['0', 'x']))

/-- Spec-side rendering of "space-separated" groups: the groups joined with a
single space between consecutive groups. -/
def spaceSeparated : List (List Char) → List Char
  | [] => []
  | [g] => g
  | g :: gs => g ++ ' ' :: spaceSeparated gs

/-- Spec-side rendering of a byte sequence: an `"0x"`-prefixed,
space-separated sequence of two-digit uppercase hex groups. -/
def hexStringSpec (bytes : List Nat) : String :=
  String.mk ('0' :: 'x' :: spaceSeparated (bytes.map byteToHexChars))

/-- The character sequence the source loop of `dataViewToHexString` appends
after the `"0x"` accumulator: each byte's two hex digits followed by a
space. -/
def hexConcat : List Nat → List Char
  | [] => []
  | b :: bs => byteToHexChars b ++ ' ' :: hexConcat bs

/-! ### Advertisements and the Profile Matcher
(`handleAdvertisement`, `extractRelevantPayload`, app.js 154-236) -/

/-- One received advertisement event (`BluetoothLEAdvertisementEvent`).
`serviceData` maps a service UUID to its bytes, `manufacturerData` maps a
company identifier to its bytes; an entry carrying `none` models data whose
extraction raises (the `catch` in `extractRelevantPayload`, app.js
230-232). -/
structure Advertisement where
  deviceId : String
  rssi : Int
  serviceData : List (String × Option (List Nat))
  manufacturerData : List (Nat × Option (List Nat))
deriving DecidableEq, Repr

/-- `extractRelevantPayload` (app.js 215-236): walk the configured profiles
in declared order; the first profile whose key is present in the event's
corresponding map yields `(dataViewToHexString bytes, profile)`; an entry
whose extraction raises is skipped with a warning and the walk continues;
no match yields `none` (the JS `{ payload: null, profile: null }`). -/
def extractRelevantPayload (profiles : List Profile) (ev : Advertisement) :
    Option (String × Profile) :=
  match profiles with
  | [] => none
  | p :: rest =>
    match p.kind with
    | .service uuid =>
      match ev.serviceData.lookup uuid with
      | some (some bytes) => some (dataViewToHexString (some bytes), p)
      | _ => extractRelevantPayload rest ev
    | .manufacturer companyId =>
      match ev.manufacturerData.lookup companyId with
      | some (some bytes) => some (dataViewToHexString (some bytes), p)
      | _ => extractRelevantPayload rest ev

/-- One entry of the `detectedAssets` map: an `FtsAsset` object
(app.js 187-196).  The `domElement`/`dom` back-reference carries no
registry data and is omitted. -/
structure FtsAsset where
  id : String
  rssi : Int
  lastSeen : Int
  payload : String
  profileName : String
  name : String
  rssiHistory : List Int
deriving DecidableEq, Repr

/-- The `detectedAssets` map (app.js 19), as an association list keyed by
`device.id`. -/
abbrev Registry := List (String × FtsAsset)

/-- JS `Map.prototype.set`: replace the value of an existing key in place,
otherwise append the new entry. -/
def mapSet (reg : Registry) (k : String) (v : FtsAsset) : Registry :=
  match reg with
  | [] => [(k, v)]
  | (k2, v2) :: rest => if k2 == k then (k, v) :: rest else (k2, v2) :: mapSet rest k v

/-- The RSSI-history update of `handleAdvertisement`'s update branch
(app.js 176-179): push the new value, then shift the oldest out once the
length exceeds 20. -/
def pushRssiHistory (h : List Int) (r : Int) : List Int :=
  let h2 := h ++ [r]
  if h2.length > 20 then h2.drop 1 else h2

/-- `handleAdvertisement` (app.js 154-208).  `nicknames` models the
`localStorage` label store (`localStorage.getItem` of
`nickname_` ++ deviceId); `now` is the capture timestamp.  No match means
no registry effect (app.js 164); a known identity is mutated in place
(rssi, lastSeen, payload, bounded history); a new identity is inserted
with `profileName` from the matched profile, the stored nickname when
present and non-empty (JS truthiness of `savedName`), and a
single-element history.  DOM tile creation/update carries no registry
state and is omitted. -/
def handleAdvertisement (profiles : List Profile)
    (nicknames : String → Option String)
    (reg : Registry) (ev : Advertisement) (now : Int) : Registry :=
  match extractRelevantPayload profiles ev with
  | none => reg
  | some (payload, profile) =>
    match reg.lookup ev.deviceId with
    | some a =>
      mapSet reg ev.deviceId
        { a with rssi := ev.rssi, lastSeen := now, payload := payload,
                 rssiHistory := pushRssiHistory a.rssiHistory ev.rssi }
    | none =>
      let savedName := nicknames ev.deviceId
      let name := match savedName with
        | some n => if n.isEmpty then "Unbenanntes FTS" else n
        | none => "Unbenanntes FTS"
      mapSet reg ev.deviceId
        { id := ev.deviceId, rssi := ev.rssi, lastSeen := now,
          payload := payload, profileName := profile.profileName,
          name := name, rssiHistory := [ev.rssi] }

/-- A finite sequence of advertisement events, each with its capture
timestamp, applied in arrival order. -/
def processEvents (profiles : List Profile) (nicknames : String → Option String)
    (reg : Registry) (evs : List (Advertisement × Int)) : Registry :=
  evs.foldl (fun r e => handleAdvertisement profiles nicknames r e.1 e.2) reg

/-- The `n` most recent elements of a list (newest last). -/
def lastN (n : Nat) (l : List α) : List α := l.drop (l.length - n)

/-! ### Relabeling (`saveNickname`, app.js 416-444) -/

/-- The observable outcome of `saveNickname`: the registry afterwards, the
`localStorage.setItem` request issued (key suffix and value), whether the
empty-label warning fired, and whether a persistence failure was
reported. -/
structure SaveResult where
  reg : Registry
  persisted : Option (String × String)
  warnedInvalid : Bool
  reportedPersistFailure : Bool
deriving DecidableEq, Repr

/-- `saveNickname` (app.js 416-444) for inspected asset `d` and input field
value `newName`; `persistOk` models whether `localStorage.setItem`
succeeds.  The guard is the JS `newName && newName.trim() !== ""`; on
success the asset's `name` is set to the trimmed value *before* the
persistence attempt, and a persistence failure is only reported
(`error(...)`), never rolled back. -/
def saveNickname (reg : Registry) (d : String) (newName : String)
    (persistOk : Bool) : SaveResult :=
  match reg.lookup d with
  | none => ⟨reg, none, false, false⟩
  | some a =>
    if ¬newName.isEmpty ∧ jsTrim newName ≠ "" then
      let trimmed := jsTrim newName
      { reg := mapSet reg d { a with name := trimmed },
        persisted := some (d, trimmed),
        warnedInvalid := false,
        reportedPersistFailure := !persistOk }
    else ⟨reg, none, true, false⟩

/-! ### Registry operations (for lifetime invariants) -/

/-- One operation on the registry after an asset exists: a further
advertisement (`handleAdvertisement`), a label edit (`saveNickname`), or a
periodic status sweep (`updateAllAssetStatus`, app.js 338-345, which only
rewrites LED classes and timestamps in the DOM and touches no registry
field). -/
inductive Op
  | adv (ev : Advertisement) (now : Int)
  | relabel (d : String) (newName : String) (persistOk : Bool)
  | sweep (now : Int)

/-- Effect of one operation on the registry. -/
def applyOp (profiles : List Profile) (nicknames : String → Option String)
    (reg : Registry) : Op → Registry
  | .adv ev now => handleAdvertisement profiles nicknames reg ev now
  | .relabel d newName persistOk => (saveNickname reg d newName persistOk).reg
  | .sweep _ => reg

/-- Effect of a sequence of operations, applied in order. -/
def applyOps (profiles : List Profile) (nicknames : String → Option String)
    (reg : Registry) (ops : List Op) : Registry :=
  ops.foldl (applyOp profiles nicknames) reg

/-! ### Scan controller (`toggleScan` / `startScan`, app.js 57-147) -/

/-- One filter entry built by `startScan` (app.js 97-107) from a profile:
`\x7b services: [uuid] \x7d` or
`\x7b manufacturerData: [\x7b companyIdentifier \x7d] \x7d`. -/
inductive ScanFilter
  | services (uuid : String)
  | manufacturerData (companyId : Nat)
deriving DecidableEq, Repr

/-- The filter list `startScan` builds from `CONFIG.FTS_PROFILES`
(app.js 97-107); both profile kinds are recognized, so no entry is
dropped. -/
def buildFilters (profiles : List Profile) : List ScanFilter :=
  profiles.map (fun p => match p.kind with
    | .service uuid => .services uuid
    | .manufacturer companyId => .manufacturerData companyId)

/-- The controller-visible state of app.js: whether `scan && scan.active`
holds, whether `tickerInterval` is set, the button presentation (the
scanning text plus the `scanning` class), and counters of the requests
sent to the scan source (`requestLEScan` / `scan.stop()` calls) and of the
conditions reported via `warn`/`error`. -/
structure ScanState where
  scanActive : Bool
  tickerOn : Bool
  btnScanning : Bool
  startRequests : Nat
  stopRequests : Nat
  reported : Nat
deriving DecidableEq, Repr

/-- App state before any scan: no active scan, no ticker, idle button. -/
def initialScanState : ScanState :=
  { scanActive := false, tickerOn := false, btnScanning := false,
    startRequests := 0, stopRequests := 0, reported := 0 }

/-- `startScan` (app.js 87-147).  `bluetoothAvailable` models
`navigator.bluetooth` being present; `accepted` models `requestLEScan`
resolving rather than rejecting.  On rejection the `catch` resets the
button and reports; the ticker is only scheduled after acceptance. -/
def startScan (profiles : List Profile) (bluetoothAvailable accepted : Bool)
    (s : ScanState) : ScanState :=
  if !bluetoothAvailable then { s with reported := s.reported + 1 }
  else if (buildFilters profiles).length = 0 then { s with reported := s.reported + 1 }
  else if accepted then
    { s with startRequests := s.startRequests + 1, scanActive := true,
             btnScanning := true, tickerOn := true }
  else
    { s with startRequests := s.startRequests + 1, reported := s.reported + 1,
             btnScanning := false }

/-- `toggleScan` (app.js 57-82), the only entry point wired to the
start/stop button.  When `scan && scan.active`, the stop branch runs:
`scan.stop()` is requested; if it throws (`stopThrows`), the `catch` only
reports the failure — the button reset and the `clearInterval` of the
ticker inside the `try` are skipped and the scan handle stays active.
Otherwise `startScan` runs. -/
def toggleScan (profiles : List Profile)
    (bluetoothAvailable accepted stopThrows : Bool) (s : ScanState) : ScanState :=
  if s.scanActive then
    if stopThrows then
      { s with stopRequests := s.stopRequests + 1, reported := s.reported + 1 }
    else
      { s with stopRequests := s.stopRequests + 1, scanActive := false,
               btnScanning := false, tickerOn := false }
  else startScan profiles bluetoothAvailable accepted s

/-! ### Concrete data for evaluating the definitions -/

/-- A registry entry as created by `handleAdvertisement` for a first
observation of a Typ-A device. -/
def assetZero : FtsAsset :=
  { id := "dev-0", rssi := -60, lastSeen := 0, payload := "0x01",
    profileName := "FTS-Gruppe Ladestation (Typ A)",
    name := "Unbenanntes FTS", rssiHistory := [-60] }

/-- An advertisement matching no configured profile: its service-data entry
for the configured UUID fails extraction, and its manufacturer data is for
an unconfigured company identifier. -/
def advNoMatch : Advertisement :=
  { deviceId := "dev-1", rssi := -70,
    serviceData := [("0xfcf1", none)],
    manufacturerData := [(0x1234, some [1])] }

/-- The second configured profile (manufacturer 0xa212). -/
def profileB : Profile :=
  { profileName := "FTS \x27M.\x27 (Typ B)", kind := .manufacturer 0xa212 }

/-- An advertisement matching the manufacturer profile (Typ B). -/
def advM : Advertisement :=
  { deviceId := "dev-1", rssi := -70,
    serviceData := [], manufacturerData := [(0xa212, some [1])] }

/-- An advertisement from the same device matching the service profile
(Typ A) instead. -/
def advS : Advertisement :=
  { deviceId := "dev-1", rssi := -65,
    serviceData := [("0xfcf1", some [2])], manufacturerData := [] }

/-! ### Theorems -/

/-- The loop of `dataViewToHexString` equals the accumulator followed by the
per-byte groups. -/
theorem hexFoldl_eq (bytes : List Nat) :
    ∀ acc : List Char,
      bytes.foldl (fun acc b => acc ++ byteToHexChars b ++ [' ']) acc =
        acc ++ hexConcat bytes := by
  induction bytes with
  | nil => intro acc; simp [hexConcat]
  | cons b bs ih =>
    intro acc
    simp only [List.foldl_cons, hexConcat, ih]
    simp [List.append_assoc]

/-- Hex digit characters are never JS whitespace. -/
theorem jsWhitespace_hexDigitChar :
    ∀ n < 16, jsWhitespace (hexDigitChar n) = false := by
  decide

/-- A rendered byte ends in a non-whitespace character. -/
theorem byteToHexChars_pair (b : Nat) :
    ∃ l c, byteToHexChars b = l ++ [c] ∧ jsWhitespace c = false := by
  unfold byteToHexChars
  split_ifs with h
  · exact ⟨['0'], hexDigitChar b, rfl, jsWhitespace_hexDigitChar b h⟩
  · exact ⟨[hexDigitChar (b / 16)], hexDigitChar (b % 16), rfl,
      jsWhitespace_hexDigitChar _ (Nat.mod_lt _ (by omega))⟩

theorem trimLeftChars_cons_zero (l : List Char) :
    trimLeftChars ('0' :: l) = '0' :: l := by
  have h : jsWhitespace '0' = false := by decide
  simp [trimLeftChars, List.dropWhile_cons, h]

theorem trimRightChars_append_space (l : List Char) :
    trimRightChars (l ++ [' ']) = trimRightChars l := by
  have h : jsWhitespace ' ' = true := by decide
  simp [trimRightChars, List.dropWhile_cons, h]

theorem trimRightChars_no_ws_end (l : List Char) (c : Char)
    (hc : jsWhitespace c = false) :
    trimRightChars (l ++ [c]) = l ++ [c] := by
  simp [trimRightChars, List.dropWhile_cons, hc]

/-- `jsTrim` agrees with JS `trim` beyond ASCII spaces: NBSP, VT, FF,
ZWNBSP/BOM, LS, PS and the ideographic space are all removed, so an
NBSP-only label is whitespace-only and a trailing NBSP is stripped. -/
theorem jsTrim_ecma_whitespace :
    jsTrim "\u00A0" = "" ∧ jsTrim " a\u00A0" = "a" ∧
    jsTrim "\u000B\u000C\uFEFF\u2028\u2029\u3000" = "" := by
  refine ⟨by decide, by decide, by decide⟩

/-- A nonempty space-separated join of groups that each end in a
non-whitespace character itself ends in a non-whitespace character. -/
theorem spaceSeparated_ends (gs : List (List Char))
    (hne : gs ≠ [])
    (hg : ∀ g ∈ gs, ∃ l c, g = l ++ [c] ∧ jsWhitespace c = false) :
    ∃ l c, spaceSeparated gs = l ++ [c] ∧ jsWhitespace c = false := by
  induction gs with
  | nil => exact absurd rfl hne
  | cons g gs ih =>
    cases gs with
    | nil =>
      exact hg g (by simp)
    | cons g2 t =>
      obtain ⟨l, c, hssg, hc⟩ := ih (by simp)
        (fun g hmem => hg g (List.mem_cons_of_mem _ hmem))
      refine ⟨g ++ ' ' :: l, c, ?_, hc⟩
      show g ++ ' ' :: spaceSeparated (g2 :: t) = (g ++ ' ' :: l) ++ [c]
      rw [hssg]
      simp

/-- The source loop's output is the space-separated join plus one trailing
space. -/
theorem hexConcat_eq_spaceSeparated (bytes : List Nat) (hne : bytes ≠ []) :
    hexConcat bytes = spaceSeparated (bytes.map byteToHexChars) ++ [' '] := by
  induction bytes with
  | nil => exact absurd rfl hne
  | cons b bs ih =>
    cases bs with
    | nil => simp [hexConcat, spaceSeparated]
    | cons b2 t =>
      show byteToHexChars b ++ ' ' :: hexConcat (b2 :: t) = _
      rw [ih (by simp)]
      show _ = (byteToHexChars b ++ ' ' ::
        spaceSeparated ((b2 :: t).map byteToHexChars)) ++ [' ']
      simp

/-- Claim C1: for every pair of timestamps `(lastSeen, now)` with
`elapsed = now - lastSeen`, the freshness classifier returns `Fresh` iff
`elapsed < ACTIVE_MS` (5000), `Stale` iff `ACTIVE_MS ≤ elapsed <
INACTIVE_MS` (30000), and `Lost` iff `elapsed ≥ INACTIVE_MS`; in
particular elapsed 4999 gives `Fresh`, 5000 gives `Stale`, 30000 gives
`Lost`. -/
theorem C1_freshness_bands (lastSeen now : Int) :
    (updateSingleAssetStatus lastSeen now = Freshness.Fresh ↔
      now - lastSeen < ACTIVE_MS) ∧
    (updateSingleAssetStatus lastSeen now = Freshness.Stale ↔
      ACTIVE_MS ≤ now - lastSeen ∧ now - lastSeen < INACTIVE_MS) ∧
    (updateSingleAssetStatus lastSeen now = Freshness.Lost ↔
      INACTIVE_MS ≤ now - lastSeen) ∧
    updateSingleAssetStatus 0 4999 = Freshness.Fresh ∧
    updateSingleAssetStatus 0 5000 = Freshness.Stale ∧
    updateSingleAssetStatus 0 30000 = Freshness.Lost := by
  refine ⟨?_, ?_, ?_, by decide, by decide, by decide⟩ <;>
    · simp only [updateSingleAssetStatus, ACTIVE_MS, INACTIVE_MS]
      split_ifs <;> simp_all <;> omega

/-- Claim C10: an asset whose `lastSeen` lies in the future relative to the
evaluation time (negative elapsed) classifies as `Fresh`: any elapsed value
strictly below the active window, all negative values included, gives
`Fresh`. -/
theorem C10_negative_elapsed_fresh (lastSeen now : Int)
    (h : now - lastSeen < 0) :
    updateSingleAssetStatus lastSeen now = Freshness.Fresh := by
  simp only [updateSingleAssetStatus, ACTIVE_MS]
  split_ifs with h1 h2 <;> first | rfl | omega

/-- Witness for C10 at `lastSeen = 100`, `now = 0`. -/
theorem C10_negative_elapsed_fresh_witness :
    (0 : Int) - 100 < 0 ∧ updateSingleAssetStatus 100 0 = Freshness.Fresh :=
  ⟨by decide, C10_negative_elapsed_fresh 100 0 (by decide)⟩

/-- Claim C4 counterexample: the payload renderer's sentinel for an empty
byte sequence is the German string `"N/A (leere Payload)"`, not the
claimed `"N/A (empty payload)"`. -/
theorem C4_sentinel_counterexample :
    dataViewToHexString (some []) ≠ "N/A (empty payload)" ∧
    dataViewToHexString none ≠ "N/A (empty payload)" := by
  constructor <;> decide

/-- Claim C4 (amended): for every nonempty byte sequence the payload
renderer returns the `"0x"`-prefixed, space-separated sequence of two-digit
uppercase hex groups (so `[0x04, 0x37]` renders as `"0x04 37"`), and every
empty or absent byte sequence renders as the sentinel
`"N/A (leere Payload)"` rather than an empty hex string. -/
theorem C4_hex_rendering (bytes : List Nat) (hne : bytes ≠ []) :
    dataViewToHexString (some bytes) = hexStringSpec bytes ∧
    dataViewToHexString (some [0x04, 0x37]) = "0x04 37" ∧
    dataViewToHexString (some []) = "N/A (leere Payload)" ∧
    dataViewToHexString none = "N/A (leere Payload)" := by
  refine ⟨?_, by decide, by decide, rfl⟩
  simp only [dataViewToHexString]
  rw [if_neg (by simpa using hne)]
  rw [hexFoldl_eq]
  unfold hexStringSpec
  congr 1
  unfold jsTrimChars
  rw [hexConcat_eq_spaceSeparated bytes hne]
  have h1 : ('0' :: 'x' :: []) ++ (spaceSeparated (bytes.map byteToHexChars) ++ [' '])
      = ('0' :: 'x' :: spaceSeparated (bytes.map byteToHexChars)) ++ [' '] := by simp
  show trimRightChars (trimLeftChars (('0' :: 'x' :: []) ++ _)) = _
  rw [h1]
  have h2 : trimLeftChars
      (('0' :: 'x' :: spaceSeparated (bytes.map byteToHexChars)) ++ [' '])
      = ('0' :: 'x' :: spaceSeparated (bytes.map byteToHexChars)) ++ [' '] := by
    show trimLeftChars ('0' :: _) = _
    exact trimLeftChars_cons_zero _
  rw [h2, trimRightChars_append_space]
  obtain ⟨l, c, hssg, hc⟩ := spaceSeparated_ends (bytes.map byteToHexChars)
    (by simpa using hne)
    (by
      intro g hmem
      obtain ⟨b, hbmem, rfl⟩ := List.mem_map.mp hmem
      exact byteToHexChars_pair b)
  rw [hssg]
  have h3 : '0' :: 'x' :: (l ++ [c]) = ('0' :: 'x' :: l) ++ [c] := by simp
  rw [h3, trimRightChars_no_ws_end _ c hc]

/-- Witness for C4 at the byte sequence `[0x04, 0x37]`. -/
theorem C4_hex_rendering_witness :
    ([0x04, 0x37] : List Nat) ≠ [] ∧
    (dataViewToHexString (some [0x04, 0x37]) = hexStringSpec [0x04, 0x37] ∧
     dataViewToHexString (some [0x04, 0x37]) = "0x04 37" ∧
     dataViewToHexString (some []) = "N/A (leere Payload)" ∧
     dataViewToHexString none = "N/A (leere Payload)") :=
  ⟨by decide, C4_hex_rendering [0x04, 0x37] (by decide)⟩

/-- `Map.set` then `Map.get` of the same key yields the stored value. -/
theorem lookup_mapSet_self (reg : Registry) (k : String) (v : FtsAsset) :
    (mapSet reg k v).lookup k = some v := by
  induction reg with
  | nil => simp [mapSet, List.lookup]
  | cons kv rest ih =>
    obtain ⟨k2, v2⟩ := kv
    by_cases h : k2 == k
    · simp [mapSet, h, List.lookup]
    · simp only [mapSet, h, if_false, Bool.false_eq_true, List.lookup_cons]
      have h2 : (k == k2) = false := by
        rw [beq_eq_false_iff_ne]
        intro he; exact absurd (by simp [he]) h
      simp [h2, ih]

/-- `Map.set` leaves every other key's value unchanged. -/
theorem lookup_mapSet_ne (reg : Registry) (k : String) (v : FtsAsset)
    (d : String) (h : d ≠ k) :
    (mapSet reg k v).lookup d = reg.lookup d := by
  induction reg with
  | nil => simp [mapSet, List.lookup, beq_eq_false_iff_ne.mpr h]
  | cons kv rest ih =>
    obtain ⟨k2, v2⟩ := kv
    by_cases h2 : k2 == k
    · have hk2 : k2 = k := by simpa using h2
      subst hk2
      simp [mapSet, List.lookup_cons, beq_eq_false_iff_ne.mpr h]
    · simp only [mapSet, h2, if_false, Bool.false_eq_true, List.lookup_cons]
      cases hdk : d == k2 <;> simp [ih]

theorem lastN_length (n : Nat) (l : List α) : (lastN n l).length = min n l.length := by
  simp [lastN]; omega

/-- The push-then-shift history update keeps exactly the 20 most recent
values. -/
theorem pushRssiHistory_lastN (xs : List Int) (r : Int) :
    pushRssiHistory (lastN 20 xs) r = lastN 20 (xs ++ [r]) := by
  by_cases h : xs.length < 20
  · have h0 : xs.length - 20 = 0 := by omega
    have h1 : xs.length + 1 - 20 = 0 := by omega
    simp [pushRssiHistory, lastN, h0, h1]
    omega
  · have hlen : (lastN 20 xs).length = 20 := by rw [lastN_length]; omega
    have hgt : ((lastN 20 xs) ++ [r]).length > 20 := by simp [hlen]
    simp only [pushRssiHistory, if_pos hgt]
    rw [List.drop_append_of_le_length (by omega)]
    unfold lastN
    rw [List.drop_drop]
    rw [List.drop_append_of_le_length (by simp)]
    congr 2
    simp
    omega

/-- Folding further matched observations of the same identity over the
registry keeps the asset present with the 20 most recent signal values. -/
theorem processEvents_history (profiles : List Profile)
    (nicknames : String → Option String) (d : String)
    (evs : List (Advertisement × Int)) :
    ∀ (reg : Registry) (a : FtsAsset) (xs : List Int),
      reg.lookup d = some a → a.rssiHistory = lastN 20 xs →
      (∀ e ∈ evs, e.1.deviceId = d) →
      (∀ e ∈ evs, (extractRelevantPayload profiles e.1).isSome) →
      ∃ a', (processEvents profiles nicknames reg evs).lookup d = some a' ∧
        a'.rssiHistory = lastN 20 (xs ++ evs.map (fun e => e.1.rssi)) := by
  induction evs with
  | nil =>
    intro reg a xs hl hh _ _
    exact ⟨a, by simpa [processEvents] using hl, by simpa using hh⟩
  | cons e rest ih =>
    intro reg a xs hl hh hd hm
    obtain ⟨pp, hext⟩ := Option.isSome_iff_exists.mp (hm e (by simp))
    obtain ⟨payload, profile⟩ := pp
    have hdid : e.1.deviceId = d := hd e (by simp)
    set newA : FtsAsset :=
      { a with rssi := e.1.rssi, lastSeen := e.2, payload := payload,
               rssiHistory := pushRssiHistory a.rssiHistory e.1.rssi } with hnewA
    have hstep : handleAdvertisement profiles nicknames reg e.1 e.2 =
        mapSet reg d newA := by
      simp [handleAdvertisement, hext, hdid, hl, hnewA]
    have hl' : (mapSet reg d newA).lookup d = some newA := lookup_mapSet_self ..
    have hh' : newA.rssiHistory = lastN 20 (xs ++ [e.1.rssi]) := by
      rw [hnewA]
      show pushRssiHistory a.rssiHistory e.1.rssi = _
      rw [hh, pushRssiHistory_lastN]
    obtain ⟨a', hfin, hhist⟩ := ih (mapSet reg d newA) newA (xs ++ [e.1.rssi]) hl' hh'
      (fun x hx => hd x (by simp [hx])) (fun x hx => hm x (by simp [hx]))
    refine ⟨a', ?_, ?_⟩
    · show (processEvents profiles nicknames reg (e :: rest)).lookup d = some a'
      simp only [processEvents, List.foldl_cons]
      rw [show handleAdvertisement profiles nicknames reg e.1 e.2 = mapSet reg d newA from hstep]
      exact hfin
    · rw [hhist]
      congr 1
      simp

/-- Claim C2: for every identity and every finite sequence of matched
observations applied to it, after each observation is fully processed the
asset's `rssiHistory` has length exactly `min 20 k` (for `k` observations
so far), holds the most recent signal-strength values in order with the
newest last, and never exceeds 20 entries. -/
theorem C2_signal_history (profiles : List Profile)
    (nicknames : String → Option String) (reg : Registry) (d : String)
    (evs : List (Advertisement × Int))
    (hreg : reg.lookup d = none)
    (hd : ∀ e ∈ evs, e.1.deviceId = d)
    (hm : ∀ e ∈ evs, (extractRelevantPayload profiles e.1).isSome)
    (k : Nat) (hk1 : 1 ≤ k) (hk2 : k ≤ evs.length) :
    ∃ a, (processEvents profiles nicknames reg (evs.take k)).lookup d = some a ∧
      a.rssiHistory = lastN 20 ((evs.take k).map (fun e => e.1.rssi)) ∧
      a.rssiHistory.length = min 20 k ∧ a.rssiHistory.length ≤ 20 := by
  cases evs with
  | nil => simp at hk2; omega
  | cons e rest =>
    cases k with
    | zero => omega
    | succ k' =>
      have htake : (e :: rest).take (k' + 1) = e :: rest.take k' := by simp
      obtain ⟨pp, hext⟩ := Option.isSome_iff_exists.mp (hm e (by simp))
      obtain ⟨payload, profile⟩ := pp
      have hdid : e.1.deviceId = d := hd e (by simp)
      set newA : FtsAsset :=
        { id := e.1.deviceId, rssi := e.1.rssi, lastSeen := e.2,
          payload := payload, profileName := profile.profileName,
          name := match nicknames e.1.deviceId with
            | some n => if n.isEmpty then "Unbenanntes FTS" else n
            | none => "Unbenanntes FTS",
          rssiHistory := [e.1.rssi] } with hnewA
      have hstep : handleAdvertisement profiles nicknames reg e.1 e.2 =
          mapSet reg d newA := by
        simp only [handleAdvertisement, hext, hdid, hreg, hnewA]
      have hl' : (mapSet reg d newA).lookup d = some newA := lookup_mapSet_self ..
      have hh' : newA.rssiHistory = lastN 20 [e.1.rssi] := by
        simp [hnewA, lastN]
      obtain ⟨a', hfin, hhist⟩ := processEvents_history profiles nicknames d
        (rest.take k') (mapSet reg d newA) newA [e.1.rssi] hl' hh'
        (fun x hx => hd x (by simp [List.mem_cons]; right; exact List.mem_of_mem_take hx))
        (fun x hx => hm x (by simp [List.mem_cons]; right; exact List.mem_of_mem_take hx))
      have hfull : (processEvents profiles nicknames reg ((e :: rest).take (k' + 1))).lookup d
          = some a' := by
        rw [htake]
        simp only [processEvents, List.foldl_cons]
        rw [show handleAdvertisement profiles nicknames reg e.1 e.2 = mapSet reg d newA from hstep]
        exact hfin
      have hmap : ((e :: rest).take (k' + 1)).map (fun e => e.1.rssi)
          = e.1.rssi :: (rest.take k').map (fun e => e.1.rssi) := by simp
      have hr : k' ≤ rest.length := by
        simp at hk2; omega
      have hlen2 : ((rest.take k').map (fun e => e.1.rssi)).length = k' := by
        simp; omega
      refine ⟨a', hfull, ?_, ?_, ?_⟩
      · rw [hhist, hmap]
        congr 1
      · rw [hhist, lastN_length]
        simp only [List.length_append, List.length_cons, List.length_nil, hlen2]
        omega
      · rw [hhist, lastN_length]
        omega

/-- Witness for C2: a single matched observation of `advM` from the empty
registry yields a one-element history. -/
theorem C2_signal_history_witness :
    (([] : Registry).lookup "dev-1" = none ∧
     (∀ e ∈ [(advM, (1000 : Int))], e.1.deviceId = "dev-1") ∧
     (∀ e ∈ [(advM, (1000 : Int))],
       (extractRelevantPayload FTS_PROFILES e.1).isSome) ∧
     1 ≤ 1 ∧ 1 ≤ ([(advM, (1000 : Int))]).length) ∧
    (∃ a, (processEvents FTS_PROFILES (fun _ => none) []
        (([(advM, (1000 : Int))]).take 1)).lookup "dev-1" = some a ∧
      a.rssiHistory = lastN 20 ((([(advM, (1000 : Int))]).take 1).map (fun e => e.1.rssi)) ∧
      a.rssiHistory.length = min 20 1 ∧ a.rssiHistory.length ≤ 20) :=
  ⟨⟨rfl, by decide, by decide, by decide, by decide⟩,
   C2_signal_history FTS_PROFILES (fun _ => none) [] "dev-1" [(advM, 1000)]
     rfl (by decide) (by decide) 1 (by decide) (by decide)⟩

/-- A single registry operation never changes an existing asset's
`profileName`. -/
theorem applyOp_profileName (profiles : List Profile)
    (nicknames : String → Option String) (reg : Registry) (op : Op)
    (d : String) (a : FtsAsset) (hl : reg.lookup d = some a) :
    ∃ a', (applyOp profiles nicknames reg op).lookup d = some a' ∧
      a'.profileName = a.profileName := by
  cases op with
  | sweep now => exact ⟨a, hl, rfl⟩
  | adv ev now =>
    cases hext : extractRelevantPayload profiles ev with
    | none =>
      refine ⟨a, ?_, rfl⟩
      simp [applyOp, handleAdvertisement, hext, hl]
    | some pp =>
      obtain ⟨payload, profile⟩ := pp
      by_cases hid : ev.deviceId = d
      · subst hid
        refine ⟨{ a with
          rssi := ev.rssi, lastSeen := now, payload := payload,
          rssiHistory := pushRssiHistory a.rssiHistory ev.rssi }, ?_, rfl⟩
        simp only [applyOp, handleAdvertisement, hext, hl]
        exact lookup_mapSet_self ..
      · have hne : d ≠ ev.deviceId := fun he => hid he.symm
        cases hlook : reg.lookup ev.deviceId with
        | some a2 =>
          refine ⟨a, ?_, rfl⟩
          simp only [applyOp, handleAdvertisement, hext, hlook]
          rw [lookup_mapSet_ne _ _ _ _ hne]
          exact hl
        | none =>
          refine ⟨a, ?_, rfl⟩
          simp only [applyOp, handleAdvertisement, hext, hlook]
          rw [lookup_mapSet_ne _ _ _ _ hne]
          exact hl
  | relabel d2 newName persistOk =>
    cases hlook : reg.lookup d2 with
    | none =>
      refine ⟨a, ?_, rfl⟩
      simp [applyOp, saveNickname, hlook, hl]
    | some a2 =>
      by_cases hguard : ¬newName.isEmpty ∧ jsTrim newName ≠ ""
      · by_cases hid : d2 = d
        · subst hid
          have ha2 : a2 = a := by rw [hlook] at hl; exact (Option.some.injEq ..).mp hl
          subst ha2
          refine ⟨{ a2 with name := jsTrim newName }, ?_, rfl⟩
          simp only [applyOp, saveNickname, hlook, if_pos hguard]
          exact lookup_mapSet_self ..
        · have hne : d ≠ d2 := fun he => hid he.symm
          refine ⟨a, ?_, rfl⟩
          simp only [applyOp, saveNickname, hlook, if_pos hguard]
          rw [lookup_mapSet_ne _ _ _ _ hne]
          exact hl
      · refine ⟨a, ?_, rfl⟩
        simp only [applyOp, saveNickname, hlook, if_neg hguard]
        exact hl

/-- A sequence of registry operations never changes an existing asset's
`profileName`. -/
theorem applyOps_profileName (profiles : List Profile)
    (nicknames : String → Option String) (ops : List Op) :
    ∀ (reg : Registry) (d : String) (a : FtsAsset), reg.lookup d = some a →
    ∃ a', (applyOps profiles nicknames reg ops).lookup d = some a' ∧
      a'.profileName = a.profileName := by
  induction ops with
  | nil => intro reg d a hl; exact ⟨a, by simpa [applyOps] using hl, rfl⟩
  | cons op rest ih =>
    intro reg d a hl
    obtain ⟨a1, hl1, hp1⟩ := applyOp_profileName profiles nicknames reg op d a hl
    obtain ⟨a', hl', hp'⟩ := ih (applyOp profiles nicknames reg op) d a1 hl1
    exact ⟨a', by simpa [applyOps, List.foldl_cons] using hl', by rw [hp', hp1]⟩

/-- Claim C3: an asset's `profileName` equals the name of the profile that
matched its first observation, and no later operation — further matched
observations (even ones that would match a different profile), label
edits, or status sweeps — ever changes it. -/
theorem C3_profileName_immutable (profiles : List Profile)
    (nicknames : String → Option String) (reg : Registry)
    (ev : Advertisement) (now : Int) (payload : String) (profile : Profile)
    (hreg : reg.lookup ev.deviceId = none)
    (hext : extractRelevantPayload profiles ev = some (payload, profile))
    (ops : List Op) :
    ∃ a', (applyOps profiles nicknames
        (handleAdvertisement profiles nicknames reg ev now) ops).lookup ev.deviceId
          = some a' ∧
      a'.profileName = profile.profileName := by
  have hstep : (handleAdvertisement profiles nicknames reg ev now).lookup ev.deviceId
      = some { id := ev.deviceId, rssi := ev.rssi, lastSeen := now, payload := payload,
               profileName := profile.profileName,
               name := match nicknames ev.deviceId with
                 | some n => if n.isEmpty then "Unbenanntes FTS" else n
                 | none => "Unbenanntes FTS",
               rssiHistory := [ev.rssi] } := by
    simp only [handleAdvertisement, hext, hreg]
    exact lookup_mapSet_self ..
  obtain ⟨a', hl', hp'⟩ := applyOps_profileName profiles nicknames ops _ ev.deviceId _ hstep
  exact ⟨a', hl', hp'⟩

/-- Witness for C3: a device first seen via the Typ-B manufacturer profile
keeps `profileName` Typ B across a later Typ-A-matching advertisement, a
relabel, and a sweep. -/
theorem C3_profileName_immutable_witness :
    ([] : Registry).lookup advM.deviceId = none ∧
    extractRelevantPayload FTS_PROFILES advM = some ("0x01", profileB) ∧
    (∃ a', (applyOps FTS_PROFILES (fun _ => none)
        (handleAdvertisement FTS_PROFILES (fun _ => none) [] advM 1000)
        [Op.adv advS 2000, Op.relabel "dev-1" " Forklift-3 " true,
         Op.sweep 3000]).lookup advM.deviceId = some a' ∧
      a'.profileName = profileB.profileName) :=
  ⟨rfl, by decide,
    C3_profileName_immutable FTS_PROFILES (fun _ => none) [] advM 1000 "0x01" profileB
      rfl (by decide)
      [Op.adv advS 2000, Op.relabel "dev-1" " Forklift-3 " true, Op.sweep 3000]⟩

/-- Claim C7: a raw advertisement for which the Profile Matcher finds no
matching profile — including one whose per-profile payload extraction
failed for every otherwise-matching profile — leaves the registry
entirely unchanged. -/
theorem C7_no_match_no_registry_effect (profiles : List Profile)
    (nicknames : String → Option String) (reg : Registry)
    (ev : Advertisement) (now : Int)
    (h : extractRelevantPayload profiles ev = none) :
    handleAdvertisement profiles nicknames reg ev now = reg := by
  simp [handleAdvertisement, h]

/-- Witness for C7: `advNoMatch` (failed extraction for the service
profile, unconfigured company identifier) leaves a one-asset registry
unchanged. -/
theorem C7_no_match_no_registry_effect_witness :
    extractRelevantPayload FTS_PROFILES advNoMatch = none ∧
    handleAdvertisement FTS_PROFILES (fun _ => none)
      [("dev-0", assetZero)] advNoMatch 1000 = [("dev-0", assetZero)] :=
  ⟨by decide, C7_no_match_no_registry_effect FTS_PROFILES (fun _ => none)
    [("dev-0", assetZero)] advNoMatch 1000 (by decide)⟩

/-- Claim C8: for an existing asset, relabeling with a string that is
empty or whitespace-only after trimming fails with the invalid-label
warning and leaves the registry unchanged; any other string stores the
trimmed label and requests persistence of the (identity, label) pair; and
the input with surrounding spaces trims to the bare label. -/
theorem C8_relabel (reg : Registry) (d : String) (newName : String)
    (persistOk : Bool) (a : FtsAsset) (hl : reg.lookup d = some a) :
    (jsTrim newName = "" →
      (saveNickname reg d newName persistOk).reg = reg ∧
      (saveNickname reg d newName persistOk).warnedInvalid = true ∧
      (saveNickname reg d newName persistOk).persisted = none) ∧
    (jsTrim newName ≠ "" →
      ((saveNickname reg d newName persistOk).reg).lookup d =
        some { a with name := jsTrim newName } ∧
      (saveNickname reg d newName persistOk).persisted = some (d, jsTrim newName)) ∧
    jsTrim " Forklift-3 " = "Forklift-3" := by
  refine ⟨?_, ?_, by decide⟩
  · intro htrim
    have hguard : ¬(¬newName.isEmpty = true ∧ jsTrim newName ≠ "") := by
      intro hg; exact hg.2 htrim
    simp only [saveNickname, hl]
    rw [if_neg hguard]
    exact ⟨rfl, rfl, rfl⟩
  · intro htrim
    have hne : ¬newName.isEmpty := by
      intro hemp
      have hstr : newName = "" := (String.isEmpty_iff _).mp hemp
      rw [hstr] at htrim
      exact htrim rfl
    have hguard : ¬newName.isEmpty ∧ jsTrim newName ≠ "" := ⟨hne, htrim⟩
    constructor
    · simp only [saveNickname, hl, if_pos hguard]
      exact lookup_mapSet_self ..
    · simp only [saveNickname, hl, if_pos hguard]

/-- Witness for C8 at the whitespace-only input from the spec's example. -/
theorem C8_relabel_witness :
    ([("dev-0", assetZero)] : Registry).lookup "dev-0" = some assetZero ∧
    ((jsTrim "   " = "" →
      (saveNickname [("dev-0", assetZero)] "dev-0" "   " true).reg = [("dev-0", assetZero)] ∧
      (saveNickname [("dev-0", assetZero)] "dev-0" "   " true).warnedInvalid = true ∧
      (saveNickname [("dev-0", assetZero)] "dev-0" "   " true).persisted = none) ∧
    (jsTrim "   " ≠ "" →
      ((saveNickname [("dev-0", assetZero)] "dev-0" "   " true).reg).lookup "dev-0" =
        some { assetZero with name := jsTrim "   " } ∧
      (saveNickname [("dev-0", assetZero)] "dev-0" "   " true).persisted =
        some ("dev-0", jsTrim "   ")) ∧
    jsTrim " Forklift-3 " = "Forklift-3") :=
  ⟨by decide, C8_relabel [("dev-0", assetZero)] "dev-0" "   " true assetZero (by decide)⟩

/-- Claim C9: after a successful label validation, the in-memory label
equals the trimmed new label regardless of whether the persistence write
succeeds; a persistence failure is reported but never rolled back. -/
theorem C9_persistence_no_rollback (reg : Registry) (d : String)
    (newName : String) (persistOk : Bool) (a : FtsAsset)
    (hl : reg.lookup d = some a) (hvalid : jsTrim newName ≠ "") :
    ((saveNickname reg d newName persistOk).reg).lookup d =
      some { a with name := jsTrim newName } ∧
    (saveNickname reg d newName false).reportedPersistFailure = true ∧
    (saveNickname reg d newName true).reportedPersistFailure = false ∧
    (saveNickname reg d newName false).reg = (saveNickname reg d newName true).reg := by
  have hne : ¬newName.isEmpty := by
    intro hemp
    have hstr : newName = "" := (String.isEmpty_iff _).mp hemp
    rw [hstr] at hvalid
    exact hvalid rfl
  have hguard : ¬newName.isEmpty ∧ jsTrim newName ≠ "" := ⟨hne, hvalid⟩
  refine ⟨?_, ?_, ?_, ?_⟩
  · simp only [saveNickname, hl, if_pos hguard]
    exact lookup_mapSet_self ..
  · simp only [saveNickname, hl, if_pos hguard]
    rfl
  · simp only [saveNickname, hl, if_pos hguard]
    rfl
  · simp only [saveNickname, hl, if_pos hguard]

/-- Witness for C9 at the input " Forklift-3 " with failing persistence. -/
theorem C9_persistence_no_rollback_witness :
    (([("dev-0", assetZero)] : Registry).lookup "dev-0" = some assetZero ∧
     jsTrim " Forklift-3 " ≠ "") ∧
    (((saveNickname [("dev-0", assetZero)] "dev-0" " Forklift-3 " false).reg).lookup "dev-0" =
      some { assetZero with name := jsTrim " Forklift-3 " } ∧
    (saveNickname [("dev-0", assetZero)] "dev-0" " Forklift-3 " false).reportedPersistFailure = true ∧
    (saveNickname [("dev-0", assetZero)] "dev-0" " Forklift-3 " true).reportedPersistFailure = false ∧
    (saveNickname [("dev-0", assetZero)] "dev-0" " Forklift-3 " false).reg =
      (saveNickname [("dev-0", assetZero)] "dev-0" " Forklift-3 " true).reg) :=
  ⟨⟨by decide, by decide⟩,
   C9_persistence_no_rollback [("dev-0", assetZero)] "dev-0" " Forklift-3 " false assetZero
     (by decide) (by decide)⟩

/-- Claim C5 counterexample: from the Active state reached by one
successful start, invoking the toggle entry point again is not a no-op that
stays Active — it leaves Active; and invoking the internal `startScan`
directly from Active issues a second start request to the scan source. -/
theorem C5_counterexample :
    (toggleScan FTS_PROFILES true true false initialScanState).scanActive = true ∧
    (toggleScan FTS_PROFILES true true false initialScanState).startRequests = 1 ∧
    (toggleScan FTS_PROFILES true true false
      (toggleScan FTS_PROFILES true true false initialScanState)).scanActive = false ∧
    (startScan FTS_PROFILES true true
      (toggleScan FTS_PROFILES true true false initialScanState)).startRequests = 2 := by
  decide

/-- Claim C5 (amended): when the controller is Active, invoking the toggle
entry point again issues no further start request (the scan source keeps
exactly the starts it already received), issues one stop request, and —
when the stop does not throw — leaves the controller Idle rather than
Active. -/
theorem C5_second_start_amended (profiles : List Profile)
    (bluetoothAvailable accepted stopThrows : Bool) (s : ScanState)
    (h : s.scanActive = true) :
    (toggleScan profiles bluetoothAvailable accepted stopThrows s).startRequests
      = s.startRequests ∧
    (toggleScan profiles bluetoothAvailable accepted stopThrows s).stopRequests
      = s.stopRequests + 1 ∧
    (stopThrows = false →
      (toggleScan profiles bluetoothAvailable accepted stopThrows s).scanActive = false) := by
  simp only [toggleScan, h, if_true]
  cases stopThrows <;> simp

/-- Witness for C5 (amended) at the post-start Active state. -/
theorem C5_second_start_amended_witness :
    ((⟨true, true, true, 1, 0, 0⟩ : ScanState).scanActive = true) ∧
    ((toggleScan FTS_PROFILES true true false ⟨true, true, true, 1, 0, 0⟩).startRequests = 1 ∧
     (toggleScan FTS_PROFILES true true false ⟨true, true, true, 1, 0, 0⟩).stopRequests = 0 + 1 ∧
     (false = false →
      (toggleScan FTS_PROFILES true true false ⟨true, true, true, 1, 0, 0⟩).scanActive = false)) :=
  ⟨rfl, C5_second_start_amended FTS_PROFILES true true false ⟨true, true, true, 1, 0, 0⟩ rfl⟩

/-- Claim C6 counterexample: when `scan.stop()` throws during stop from the
Active state, the ticker is not cancelled, the button keeps its scanning
presentation, and the scan handle stays active — the controller does not
reach Idle. -/
theorem C6_counterexample :
    (toggleScan FTS_PROFILES true true true ⟨true, true, true, 1, 0, 0⟩).tickerOn = true ∧
    (toggleScan FTS_PROFILES true true true ⟨true, true, true, 1, 0, 0⟩).btnScanning = true ∧
    (toggleScan FTS_PROFILES true true true ⟨true, true, true, 1, 0, 0⟩).scanActive = true := by
  decide

/-- Claim C6 (amended): stopping from Active with a successful halt cancels
the periodic sweep and reaches the Idle presentation state synchronously,
before `stop` completes; when the halt request throws, the failure is
reported but the sweep stays scheduled and the presentation stays
scanning. -/
theorem C6_stop_amended (profiles : List Profile)
    (bluetoothAvailable accepted : Bool) (s : ScanState)
    (h : s.scanActive = true) :
    ((toggleScan profiles bluetoothAvailable accepted false s).tickerOn = false ∧
     (toggleScan profiles bluetoothAvailable accepted false s).btnScanning = false ∧
     (toggleScan profiles bluetoothAvailable accepted false s).scanActive = false) ∧
    ((toggleScan profiles bluetoothAvailable accepted true s).reported = s.reported + 1 ∧
     (toggleScan profiles bluetoothAvailable accepted true s).tickerOn = s.tickerOn ∧
     (toggleScan profiles bluetoothAvailable accepted true s).btnScanning = s.btnScanning ∧
     (toggleScan profiles bluetoothAvailable accepted true s).scanActive = s.scanActive) := by
  simp [toggleScan, h]

/-- Witness for C6 (amended) at the post-start Active state. -/
theorem C6_stop_amended_witness :
    ((⟨true, true, true, 1, 0, 0⟩ : ScanState).scanActive = true) ∧
    (((toggleScan FTS_PROFILES true true false ⟨true, true, true, 1, 0, 0⟩).tickerOn = false ∧
      (toggleScan FTS_PROFILES true true false ⟨true, true, true, 1, 0, 0⟩).btnScanning = false ∧
      (toggleScan FTS_PROFILES true true false ⟨true, true, true, 1, 0, 0⟩).scanActive = false) ∧
     ((toggleScan FTS_PROFILES true true true ⟨true, true, true, 1, 0, 0⟩).reported = 0 + 1 ∧
      (toggleScan FTS_PROFILES true true true ⟨true, true, true, 1, 0, 0⟩).tickerOn = true ∧
      (toggleScan FTS_PROFILES true true true ⟨true, true, true, 1, 0, 0⟩).btnScanning = true ∧
      (toggleScan FTS_PROFILES true true true ⟨true, true, true, 1, 0, 0⟩).scanActive = true)) :=
  ⟨rfl, C6_stop_amended FTS_PROFILES true true ⟨true, true, true, 1, 0, 0⟩ rfl⟩

end FleetView
